import Mathlib

/-!
Shallow embedding of the SyncLyrics backend (src/synclyrics/backend/main.py)
and verification of its specification claims.

Conventions of the embedding:
* Python `None` is `Option.none`; a Python value of type `Optional[str]` is
  `Option String`, an optional float position is `Option ℚ`.
* Wall-clock instants and media positions are rationals (`ℚ`); the code does
  ordinary field arithmetic and comparisons on them, never bit-level float
  operations, so `ℚ` is an adequate model of the float arithmetic used.
* External collaborators are abstracted at their call boundary exactly where
  the source calls them: the lyric provider (`syncedlyrics.search`, wrapped in
  a try/except that turns any exception into `None`) becomes an
  `Option String` outcome parameter; `datetime.fromisoformat` becomes an
  `Option ℚ` parse-outcome parameter (`none` models the exception path).
* The on-disk cache directory is a map from filename to file contents
  (`String → Option String`).
-/

/-- Python f-string interpolation of an `Optional[str]` value: `None` renders
as the four-character string `"None"`, a present string renders as itself. -/
def pyStr : Option String → String
  | none => "None"
  | some s => s

/-- Python truthiness of an `Optional[str]` value: `None` and the empty
string are falsy, every other string is truthy. -/
def pyTruthyStr : Option String → Bool
  | none => false
  | some s => !s.isEmpty

/-- Embeds line 237 of main.py: `song_key = f"{artist}_{title}"`.  No case
folding and no whitespace normalization is applied here. -/
def songKey (artist title : Option String) : String :=
  pyStr artist ++ "_" ++ pyStr title

/-- Character-wise effect of `.replace(" ", "_")` (the pattern is the single
character `' '`, so the substring replace is a per-character map). -/
def spaceUnderscore (c : Char) : Char :=
  if c = ' ' then '_' else c

/-- Embeds Python `str.replace(" ", "_")`. -/
def pyReplaceSpace (s : String) : String :=
  String.mk (s.data.map spaceUnderscore)

/-- Embeds Python `str.lower()` as a character-wise map with `Char.toLower`
(faithful on the Basic Latin range used by the cache-key transform). -/
def pyLower (s : String) : String :=
  String.mk (s.data.map Char.toLower)

/-- Embeds line 161 of main.py:
`filename = f"{artist}_{title}".replace(" ", "_").lower() + ".lrc"`. -/
def cacheFilename (artist title : Option String) : String :=
  pyLower (pyReplaceSpace (songKey artist title)) ++ ".lrc"

/-- The on-disk lyric cache, as a map from filename to file contents
(`none` = no file at that path). -/
abbrev CacheMap := String → Option String

/-- Result of one call to `fetch_lyrics`: the returned value, the cache
directory afterwards, and how many times the external provider was invoked
during the call. -/
structure FetchResult where
  lyrics : Option String
  cache : CacheMap
  providerCalls : Nat

/-- Embeds `fetch_lyrics` (main.py lines 159-191).  `provider` is the outcome
of the wrapped `syncedlyrics.search` call: the wrapper catches every
exception and returns `None`, so `none` covers provider error, no match and
any exception; `some s` is a returned lyrics string.  On a cache hit the file
contents are returned verbatim and the provider is not invoked.  On a miss
the provider runs once; a truthy result is written to the cache file and
returned, otherwise the function returns `None` and writes nothing.  The
`duration` argument is accepted and ignored, as in the source. -/
def fetch_lyrics (cache : CacheMap) (provider : Option String)
    (artist title : Option String) (duration : ℤ) : FetchResult :=
  let filename := cacheFilename artist title
  match cache filename with
  | some contents => ⟨some contents, cache, 0⟩
  | none =>
      let lyrics := provider
      if pyTruthyStr lyrics then
        ⟨lyrics, fun k => if k = filename then lyrics else cache k, 1⟩
      else
        ⟨none, cache, 1⟩

/-- Embeds `parse_ha_time` (main.py lines 193-199).  The `datetime` library
is external: `parsed` is the outcome of
`datetime.fromisoformat(time_str.replace('Z', '+00:00')).timestamp()`, with
`none` modelling the raised exception; the except branch returns
`time.time()`, i.e. the current wall clock `now`. -/
def parse_ha_time (now : ℚ) (parsed : Option ℚ) : ℚ :=
  match parsed with
  | some t => t
  | none => now

/-- Embeds the drift-compensation step (main.py lines 232-235):
`current_pos = raw_pos`, then if the state is `"playing"`, `raw_pos` is not
`None` and `updated_at` is truthy, `current_pos = raw_pos + (time.time() -
parse_ha_time(updated_at))`.  `updatedAt = none` models an absent or empty
`media_position_updated_at` attribute; `updatedAt = some parsed` models a
present, truthy timestamp string with parse outcome `parsed`. -/
def estimatePosition (now : ℚ) (state : Option String) (rawPos : Option ℚ)
    (updatedAt : Option (Option ℚ)) : Option ℚ :=
  match state, rawPos, updatedAt with
  | some "playing", some rp, some parsed => some (rp + (now - parse_ha_time now parsed))
  | _, _, _ => rawPos

/-- The configuration mapping read from options.json each tick, modelled
structurally as an association list (only its decidable equality matters). -/
abbrev Opts := List (String × String)

/-- One player snapshot extracted from a successful Home Assistant state
response (main.py lines 223-230). -/
structure Snapshot where
  title : Option String
  artist : Option String
  state : Option String
  rawPos : Option ℚ
  updatedAt : Option (Option ℚ)
  album : Option String
  duration : Option ℚ
  entityPicture : Option String
deriving DecidableEq

/-- The `song_info` dictionary built in the update branch (main.py
lines 255-264). -/
structure SongInfo where
  title : Option String
  artist : Option String
  album : Option String
  image : Option String
  position : Option ℚ
  duration : Option ℚ
  state : Option String
  lyrics : Option String
deriving DecidableEq

/-- A message handed to the broadcaster: a full `update` payload (song plus
options) or a lightweight `sync` payload carrying exactly a position and a
playback state (main.py lines 272 and 287-290). -/
inductive Message where
  | update (data : SongInfo) (options : Option Opts)
  | sync (position : Option ℚ) (state : Option String)
deriving DecidableEq

/-- The shared `current_state` global consulted by newly connecting
subscribers (main.py lines 33-36). -/
structure CurrentState where
  song : Option SongInfo
  options : Option Opts
deriving DecidableEq

/-- The loop-local reconciliation variables of `monitor_ha_state`
(main.py lines 203-206). -/
structure LoopState where
  lastSongKey : Option String
  lastBroadcastPos : Option ℚ
  lastBroadcastState : Option String
  lastOptions : Option Opts
deriving DecidableEq

/-- Initial loop state: `last_song_key = None`, `last_broadcast_pos = -1`,
`last_broadcast_state = None`, `last_options = None`. -/
def initialLoopState : LoopState :=
  ⟨none, some (-1), none, none⟩

/-- Everything one tick can observably change: the loop state, the shared
current-state record, the cache directory, and the list of messages handed
to the broadcaster during the tick. -/
structure TickResult where
  loopState : LoopState
  currentState : CurrentState
  cache : CacheMap
  messages : List Message

/-- Embeds one iteration of the `monitor_ha_state` loop body for a tick on
which the Home Assistant request succeeded with status 200 (main.py
lines 210-290).  `provider` is the lyric-provider outcome used by
`fetch_lyrics` if the tick reaches it; `now` is the wall clock of the tick.
The same-song branch with `last_broadcast_pos = None` and
`last_broadcast_state == "playing"` raises a `TypeError` at
`last_broadcast_pos + time_passed`, which the loop's blanket `except`
catches: observably the tick ends with no broadcast and no further state
change, which is how that case is rendered here.  The fire-and-forget
`publish_color` task has no effect on any modelled state and is omitted. -/
def tick (st : LoopState) (cur : CurrentState) (cache : CacheMap)
    (provider : Option String) (currentOptions : Opts) (snap : Snapshot)
    (now : ℚ) : TickResult :=
  -- options_changed = last_options is not None and current_options != last_options
  -- last_options = current_options  (applied to every branch below)
  let st1 : LoopState := { st with lastOptions := some currentOptions }
  let current_pos : Option ℚ :=
    estimatePosition now snap.state snap.rawPos snap.updatedAt
  let song_key : String := songKey snap.artist snap.title
  if pyTruthyStr snap.title = false then
    -- `if not title: pass`
    ⟨st1, cur, cache, []⟩
  else if some song_key ≠ st.lastSongKey ∨
      (st.lastOptions ≠ none ∧ st.lastOptions ≠ some currentOptions) then
    -- song-change / options-change branch (lines 241-272)
    let fr := fetch_lyrics cache provider snap.artist snap.title
      ((snap.duration.getD 0).floor)
    let image : Option String :=
      if pyTruthyStr snap.entityPicture then
        some ("/api/proxy?url=" ++ pyStr snap.entityPicture)
      else snap.entityPicture
    let song_info : SongInfo :=
      ⟨snap.title, snap.artist, snap.album, image, current_pos,
       snap.duration, snap.state, fr.lyrics⟩
    ⟨⟨some song_key, current_pos, snap.state, some currentOptions⟩,
     ⟨some song_info, some currentOptions⟩,
     fr.cache,
     [Message.update song_info (some currentOptions)]⟩
  else
    -- same-song branch (lines 273-290), time_passed = 1.0
    if st.lastBroadcastState = some "playing" ∧ st.lastBroadcastPos = none then
      -- TypeError: unsupported operand None + 1.0, caught by the loop
      ⟨st1, cur, cache, []⟩
    else
      let expected_pos : Option ℚ :=
        if st.lastBroadcastState = some "playing" then
          Option.map (fun p => p + 1) st.lastBroadcastPos
        else st.lastBroadcastPos
      -- is_seeking = abs((current_pos or 0) - (expected_pos or 0)) > 2.0
      -- is_state_change = state != last_broadcast_state
      if |current_pos.getD 0 - expected_pos.getD 0| > 2 ∨
          snap.state ≠ st.lastBroadcastState then
        let cur' : CurrentState :=
          match cur.song with
          | some s => ⟨some { s with position := current_pos, state := snap.state },
                       cur.options⟩
          | none => cur
        ⟨⟨st.lastSongKey, current_pos, snap.state, some currentOptions⟩,
         cur', cache, [Message.sync current_pos snap.state]⟩
      else
        ⟨st1, cur, cache, []⟩

/-- The subscriber registry (main.py lines 132-134), with subscribers
identified by opaque numeric identities. -/
structure ConnectionManager where
  active_connections : List Nat
deriving DecidableEq

/-- Embeds `ConnectionManager.connect` (main.py lines 136-144): accept,
append to the registry, and if `current_state["song"]` is populated send
that one websocket a single `update` message with the current song and
options.  Returns the new registry and the messages sent to the connecting
subscriber during registration. -/
def ConnectionManager.connect (m : ConnectionManager) (cur : CurrentState)
    (ws : Nat) : ConnectionManager × List Message :=
  let m' : ConnectionManager := ⟨m.active_connections ++ [ws]⟩
  match cur.song with
  | some s => (m', [Message.update s cur.options])
  | none => (m', [])

/-- Embeds `ConnectionManager.disconnect` (main.py lines 146-148): remove
the subscriber if present, no-op otherwise. -/
def ConnectionManager.disconnect (m : ConnectionManager) (ws : Nat) :
    ConnectionManager :=
  if ws ∈ m.active_connections then ⟨m.active_connections.erase ws⟩ else m

/-- The `for connection in active_connections: try send except pass` loop of
`broadcast` (main.py lines 150-155).  `fails c = true` models `send_text`
raising for subscriber `c`; the except swallows it and the loop continues.
Returns the deliveries performed, in registry order. -/
def broadcastLoop (fails : Nat → Bool) (message : String) :
    List Nat → List (Nat × String)
  | [] => []
  | c :: rest =>
      if fails c then broadcastLoop fails message rest
      else (c, message) :: broadcastLoop fails message rest

/-- Embeds `ConnectionManager.broadcast` (main.py lines 150-155): deliver to
every registered subscriber, swallowing per-subscriber failures.  The
registry is returned unchanged — the source never removes a subscriber
here. -/
def ConnectionManager.broadcast (m : ConnectionManager) (fails : Nat → Bool)
    (message : String) : ConnectionManager × List (Nat × String) :=
  (m, broadcastLoop fails message m.active_connections)

/-! ## Helper lemmas -/

/-- Packing a valid codepoint and reading it back is the identity. -/
theorem char_toNat_ofNat_valid (m : Nat) (h : m.isValidChar) :
    (Char.ofNat m).toNat = m := by
  rw [Char.ofNat, dif_pos h]
  rfl

/-- Lowercasing never produces a space from a non-space character. -/
theorem toLower_ne_space {c : Char} (h : c ≠ ' ') : Char.toLower c ≠ ' ' := by
  unfold Char.toLower
  dsimp only
  split
  next hc =>
    intro heq
    have h1 : (Char.ofNat (c.toNat + 32)).toNat = c.toNat + 32 :=
      char_toNat_ofNat_valid _ (Or.inl (by omega))
    rw [heq] at h1
    have h2 : (' ' : Char).toNat = 32 := rfl
    omega
  next => exact h

/-- The space-to-underscore map commutes with lowercasing. -/
theorem toLower_spaceUnderscore_comm (c : Char) :
    Char.toLower (spaceUnderscore c) = spaceUnderscore (Char.toLower c) := by
  by_cases hc : c = ' '
  · subst hc
    decide
  · simp only [spaceUnderscore, if_neg hc, if_neg (toLower_ne_space hc)]

/-- Lists of characters agreeing up to case still agree up to case after the
space-to-underscore transform. -/
theorem map_lower_replace {l l2 : List Char}
    (h : l.map Char.toLower = l2.map Char.toLower) :
    (l.map spaceUnderscore).map Char.toLower =
      (l2.map spaceUnderscore).map Char.toLower := by
  rw [List.map_map, List.map_map]
  have e : Char.toLower ∘ spaceUnderscore = spaceUnderscore ∘ Char.toLower :=
    funext fun c => toLower_spaceUnderscore_comm c
  rw [e, ← List.map_map, ← List.map_map, h]

/-- A non-failing subscriber in the registry receives the broadcast. -/
theorem broadcastLoop_mem {fails : Nat → Bool} {message : String} {ws : Nat}
    (l : List Nat) (hmem : ws ∈ l) (hok : fails ws = false) :
    (ws, message) ∈ broadcastLoop fails message l := by
  induction l with
  | nil => cases hmem
  | cons c rest ih =>
    unfold broadcastLoop
    rcases List.mem_cons.mp hmem with rfl | htail
    · rw [hok]
      exact List.mem_cons_self _ _
    · split
      · exact ih htail
      · exact List.mem_cons_of_mem _ (ih htail)

/-- The drift estimator returns `none` whenever the raw position is absent. -/
theorem estimatePosition_rawPos_none (now : ℚ) (state : Option String)
    (updatedAt : Option (Option ℚ)) :
    estimatePosition now state none updatedAt = none := by
  unfold estimatePosition
  split <;> simp_all

/-- A cache hit returns the file contents verbatim, leaves the cache
unchanged and never invokes the provider. -/
theorem fetch_lyrics_hit {cache : CacheMap} {artist title : Option String}
    {c : String} (provider : Option String) (d : ℤ)
    (hc : cache (cacheFilename artist title) = some c) :
    fetch_lyrics cache provider artist title d = ⟨some c, cache, 0⟩ := by
  simp [fetch_lyrics, hc]

/-- A cache miss with a truthy provider result writes the result to the
cache file and returns it, after one provider call. -/
theorem fetch_lyrics_miss_success {cache : CacheMap} {artist title : Option String}
    {provider : Option String} (d : ℤ)
    (hn : cache (cacheFilename artist title) = none)
    (ht : pyTruthyStr provider = true) :
    fetch_lyrics cache provider artist title d =
      ⟨provider,
       fun k => if k = cacheFilename artist title then provider else cache k,
       1⟩ := by
  simp [fetch_lyrics, hn, ht]

/-- A cache miss with a falsy provider result returns `none` and leaves the
cache unchanged, after one provider call. -/
theorem fetch_lyrics_miss_fail {cache : CacheMap} {artist title : Option String}
    {provider : Option String} (d : ℤ)
    (hn : cache (cacheFilename artist title) = none)
    (ht : pyTruthyStr provider = false) :
    fetch_lyrics cache provider artist title d = ⟨none, cache, 1⟩ := by
  simp [fetch_lyrics, hn, ht]

/-! ## Claim theorems -/

/-- C6: the drift-compensated estimate equals the raw reported position
unchanged when the playback state is not "playing" or the raw position or
its timestamp is absent; when the state is "playing" and both inputs are
present (with the timestamp parsing to `ts`), the estimate equals
`rawPos + (now - ts)` with `now` the wall clock at estimation time. -/
theorem estimatePosition_spec (now : ℚ) (state : Option String)
    (rawPos : Option ℚ) (updatedAt : Option (Option ℚ)) :
    ((state ≠ some "playing" ∨ rawPos = none ∨ updatedAt = none) →
      estimatePosition now state rawPos updatedAt = rawPos)
    ∧ (∀ rp ts, state = some "playing" → rawPos = some rp →
        updatedAt = some (some ts) →
        estimatePosition now state rawPos updatedAt = some (rp + (now - ts))) := by
  constructor
  · intro h
    unfold estimatePosition
    split
    · rcases h with h | h | h <;> simp_all
    · rfl
  · rintro rp ts rfl rfl rfl
    simp [estimatePosition, parse_ha_time]

/-- Witness for C6 at concrete inputs: a paused track does not advance, and
a playing track with raw position 7 reported at instant 90 is estimated at
7 + (100 - 90) when the wall clock reads 100. -/
theorem estimatePosition_spec_witness :
    estimatePosition 100 (some "paused") (some 7) none = some 7
    ∧ estimatePosition 100 (some "playing") (some 7) (some (some 90)) =
        some (7 + (100 - 90)) :=
  ⟨(estimatePosition_spec 100 (some "paused") (some 7) none).1
      (Or.inl (by simp)),
   (estimatePosition_spec 100 (some "playing") (some 7) (some (some 90))).2
      7 90 rfl rfl rfl⟩

/-- C9: an unparseable position timestamp makes `parse_ha_time` fall back to
the current wall clock, so the drift correction is zero and the estimate
equals the raw position; no error escapes (the functions are total). -/
theorem parse_ha_time_fallback (now r : ℚ) :
    parse_ha_time now none = now
    ∧ estimatePosition now (some "playing") (some r) (some none) = some r := by
  refine ⟨rfl, ?_⟩
  simp [estimatePosition, parse_ha_time]

/-- C5: if a cache file exists at the key's path, fetch returns its full
contents verbatim with zero provider calls and an unchanged cache; and after
any fetch that returned lyrics for a key, every subsequent fetch for the
same key returns byte-identical content with zero further provider calls. -/
theorem fetch_lyrics_cache_spec (cache : CacheMap) (provider : Option String)
    (artist title : Option String) (d : ℤ) :
    (∀ c, cache (cacheFilename artist title) = some c →
      fetch_lyrics cache provider artist title d = ⟨some c, cache, 0⟩)
    ∧ (∀ s (provider2 : Option String) (d2 : ℤ),
        (fetch_lyrics cache provider artist title d).lyrics = some s →
        fetch_lyrics (fetch_lyrics cache provider artist title d).cache
            provider2 artist title d2 =
          ⟨some s, (fetch_lyrics cache provider artist title d).cache, 0⟩) := by
  constructor
  · intro c hc
    exact fetch_lyrics_hit provider d hc
  · intro s provider2 d2 hs
    rcases h : cache (cacheFilename artist title) with _ | c
    · cases hp : pyTruthyStr provider with
      | false =>
        rw [fetch_lyrics_miss_fail d h hp] at hs
        cases hs
      | true =>
        rw [fetch_lyrics_miss_success d h hp] at hs ⊢
        dsimp only at hs
        exact fetch_lyrics_hit provider2 d2 (by simp [hs])
    · rw [fetch_lyrics_hit provider d h] at hs ⊢
      cases hs
      exact fetch_lyrics_hit provider2 d2 h

/-- Witness for C5: a cache containing a file returns its contents verbatim
with zero provider calls. -/
theorem fetch_lyrics_cache_spec_witness :
    fetch_lyrics (fun _ => some "cached lyrics") none (some "a") (some "t") 0 =
      ⟨some "cached lyrics", fun _ => some "cached lyrics", 0⟩ :=
  (fetch_lyrics_cache_spec (fun _ => some "cached lyrics") none
      (some "a") (some "t") 0).1 "cached lyrics" rfl

/-- C7: on lyric-lookup failure (provider error, no match, or any exception,
all of which the source's wrapper turns into a falsy result), fetch returns
`none` and writes nothing to the cache, so every subsequent fetch for the
same key invokes the provider again in full (one fresh provider call). -/
theorem fetch_lyrics_failure_spec (cache : CacheMap) (provider : Option String)
    (artist title : Option String) (d : ℤ)
    (hmiss : cache (cacheFilename artist title) = none)
    (hfail : provider = none ∨ provider = some "") :
    fetch_lyrics cache provider artist title d = ⟨none, cache, 1⟩
    ∧ ∀ (provider2 : Option String) (d2 : ℤ),
        (fetch_lyrics cache provider2 artist title d2).providerCalls = 1 := by
  have ht : pyTruthyStr provider = false := by
    rcases hfail with rfl | rfl <;> rfl
  constructor
  · exact fetch_lyrics_miss_fail d hmiss ht
  · intro provider2 d2
    cases hp : pyTruthyStr provider2 with
    | false => rw [fetch_lyrics_miss_fail d2 hmiss hp]
    | true => rw [fetch_lyrics_miss_success d2 hmiss hp]

/-- Witness for C7: a miss with a failed provider returns `none`, leaves the
cache unchanged, and a retry performs one fresh provider call. -/
theorem fetch_lyrics_failure_spec_witness :
    fetch_lyrics (fun _ => none) none (some "a") (some "t") 0 =
      ⟨none, fun _ => none, 1⟩
    ∧ (fetch_lyrics (fun _ => none) (some "found") (some "a") (some "t") 0).providerCalls = 1 :=
  ⟨(fetch_lyrics_failure_spec (fun _ => none) none (some "a") (some "t") 0
      rfl (Or.inl rfl)).1,
   (fetch_lyrics_failure_spec (fun _ => none) none (some "a") (some "t") 0
      rfl (Or.inl rfl)).2 (some "found") 0⟩

/-- C8: a tick whose snapshot has an empty or absent title is skipped
entirely: no message is broadcast and the stored song key, last broadcast
position, last broadcast state, shared current-state record and cache are
all left unchanged. -/
theorem tick_skip_empty_title (st : LoopState) (cur : CurrentState)
    (cache : CacheMap) (provider : Option String) (currentOptions : Opts)
    (snap : Snapshot) (now : ℚ)
    (h : pyTruthyStr snap.title = false) :
    (tick st cur cache provider currentOptions snap now).messages = []
    ∧ (tick st cur cache provider currentOptions snap now).loopState.lastSongKey
        = st.lastSongKey
    ∧ (tick st cur cache provider currentOptions snap now).loopState.lastBroadcastPos
        = st.lastBroadcastPos
    ∧ (tick st cur cache provider currentOptions snap now).loopState.lastBroadcastState
        = st.lastBroadcastState
    ∧ (tick st cur cache provider currentOptions snap now).currentState = cur
    ∧ (tick st cur cache provider currentOptions snap now).cache = cache := by
  simp [tick, h]

/-- Witness for C8 at a concrete absent-title snapshot. -/
theorem tick_skip_empty_title_witness :
    (tick initialLoopState ⟨none, none⟩ (fun _ => none) none []
        ⟨none, none, none, none, none, none, none, none⟩ 0).messages = []
    ∧ (tick initialLoopState ⟨none, none⟩ (fun _ => none) none []
        ⟨none, none, none, none, none, none, none, none⟩ 0).currentState = ⟨none, none⟩ := by
  have h := tick_skip_empty_title initialLoopState ⟨none, none⟩ (fun _ => none)
    none [] ⟨none, none, none, none, none, none, none, none⟩ 0 rfl
  exact ⟨h.1, h.2.2.2.2.1⟩

/-- C1: in the same-song branch (same song key, no configuration change,
with the stored broadcast position and the estimated position present), the
expected position is the last broadcast position plus one tick-interval when
the last broadcast state is "playing" and the last broadcast position
unchanged otherwise, and a sync message — carrying exactly the position and
state — is emitted if and only if the absolute difference between the
estimated and expected positions exceeds 2.0 seconds or the snapshot's
playback state differs from the last broadcast state; otherwise the tick
emits nothing. -/
theorem tick_same_song_sync_iff (st : LoopState) (cur : CurrentState)
    (cache : CacheMap) (provider : Option String) (currentOptions : Opts)
    (snap : Snapshot) (now p c : ℚ)
    (htitle : pyTruthyStr snap.title = true)
    (hkey : st.lastSongKey = some (songKey snap.artist snap.title))
    (hopts : st.lastOptions = some currentOptions)
    (hlbp : st.lastBroadcastPos = some p)
    (hest : estimatePosition now snap.state snap.rawPos snap.updatedAt = some c) :
    (tick st cur cache provider currentOptions snap now).messages =
      if |c - (if st.lastBroadcastState = some "playing" then p + 1 else p)| > 2
          ∨ snap.state ≠ st.lastBroadcastState then
        [Message.sync (some c) snap.state]
      else [] := by
  by_cases hplay : st.lastBroadcastState = some "playing" <;>
    simp [tick, htitle, hkey, hopts, hlbp, hest, hplay] <;>
    rw [apply_ite TickResult.messages]

/-- Witness for C1: same song "A_T" still playing, last broadcast position
10, estimated position 40 — a seek (|40 - 11| > 2), so one sync message with
position 40 is emitted. -/
theorem tick_same_song_sync_iff_witness :
    (tick ⟨some "A_T", some 10, some "playing", some []⟩ ⟨none, none⟩
        (fun _ => none) none []
        ⟨some "T", some "A", some "playing", some 40, none, none, none, none⟩
        1000).messages = [Message.sync (some 40) (some "playing")] := by
  have h := tick_same_song_sync_iff ⟨some "A_T", some 10, some "playing", some []⟩
      ⟨none, none⟩ (fun _ => none) none []
      ⟨some "T", some "A", some "playing", some 40, none, none, none, none⟩
      1000 10 40 rfl (by decide) rfl rfl rfl
  rw [h]
  norm_num

/-- C10: in the same-song branch, an absent estimated position is
substituted with 0 in the seek comparison, so a snapshot whose raw position
becomes unavailable while title, artist and playback state are unchanged
satisfies the seek condition whenever |0 - expected| > 2, and the emitted
sync message carries a null position. -/
theorem tick_sync_null_position (st : LoopState) (cur : CurrentState)
    (cache : CacheMap) (provider : Option String) (currentOptions : Opts)
    (snap : Snapshot) (now p : ℚ)
    (htitle : pyTruthyStr snap.title = true)
    (hkey : st.lastSongKey = some (songKey snap.artist snap.title))
    (hopts : st.lastOptions = some currentOptions)
    (hlbp : st.lastBroadcastPos = some p)
    (hraw : snap.rawPos = none)
    (hstate : snap.state = st.lastBroadcastState)
    (hseek : |0 - (if st.lastBroadcastState = some "playing" then p + 1 else p)| > 2) :
    (tick st cur cache provider currentOptions snap now).messages =
      [Message.sync none snap.state] := by
  have hest : estimatePosition now snap.state snap.rawPos snap.updatedAt = none := by
    rw [hraw]
    exact estimatePosition_rawPos_none now snap.state snap.updatedAt
  by_cases hplay : st.lastBroadcastState = some "playing"
  · rw [if_pos hplay] at hseek
    simp [tick, htitle, hkey, hopts, hlbp, hraw, estimatePosition_rawPos_none,
      hplay, hstate] at hseek ⊢
    simp [hseek]
  · rw [if_neg hplay] at hseek
    simp [tick, htitle, hkey, hopts, hlbp, hraw, estimatePosition_rawPos_none,
      hplay, hstate] at hseek ⊢
    simp [hseek]

/-- Witness for C10: the raw position disappears while "A_T" keeps playing
with last broadcast position 10; |0 - 11| > 2, so a sync message with a null
position is emitted. -/
theorem tick_sync_null_position_witness :
    (tick ⟨some "A_T", some 10, some "playing", some []⟩ ⟨none, none⟩
        (fun _ => none) none []
        ⟨some "T", some "A", some "playing", none, none, none, none, none⟩
        1000).messages = [Message.sync none (some "playing")] := by
  have h := tick_sync_null_position ⟨some "A_T", some 10, some "playing", some []⟩
      ⟨none, none⟩ (fun _ => none) none []
      ⟨some "T", some "A", some "playing", none, none, none, none, none⟩
      1000 10 rfl (by decide) rfl rfl rfl rfl (by norm_num)
  exact h

/-- C3 counterexample: in a registry [5, 7] where delivery to subscriber 5
raises, the broadcast still delivers to 7 and propagates no error, but
subscriber 5 is NOT removed from the registry — the registry after the
broadcast is unchanged, refuting the removal part of the claim. -/
theorem broadcast_keeps_failing_subscriber :
    (ConnectionManager.broadcast ⟨[5, 7]⟩ (fun c => c == 5) "hello").2 = [(7, "hello")]
    ∧ (ConnectionManager.broadcast ⟨[5, 7]⟩ (fun c => c == 5) "hello").1.active_connections
        = [5, 7]
    ∧ 5 ∈ (ConnectionManager.broadcast ⟨[5, 7]⟩
        (fun c => c == 5) "hello").1.active_connections := by
  refine ⟨rfl, rfl, ?_⟩
  decide

/-- C3 amended: a delivery failure to one subscriber neither prevents
delivery of the same message to every other registered subscriber nor
propagates an error to the caller, but the failing subscriber stays in the
registry (the registry is returned unchanged); removal happens only later
through the websocket endpoint's disconnect path. -/
theorem broadcast_failure_isolation (m : ConnectionManager) (fails : Nat → Bool)
    (message : String) (ws : Nat) (hmem : ws ∈ m.active_connections)
    (hok : fails ws = false) :
    (ws, message) ∈ (m.broadcast fails message).2
    ∧ (m.broadcast fails message).1 = m :=
  ⟨broadcastLoop_mem m.active_connections hmem hok, rfl⟩

/-- Witness for the amended C3: subscriber 7 still receives the message when
5 fails, and the registry is unchanged. -/
theorem broadcast_failure_isolation_witness :
    (7, "hello") ∈ (ConnectionManager.broadcast ⟨[5, 7]⟩ (fun c => c == 5) "hello").2
    ∧ (ConnectionManager.broadcast ⟨[5, 7]⟩ (fun c => c == 5) "hello").1 = ⟨[5, 7]⟩ :=
  broadcast_failure_isolation ⟨[5, 7]⟩ (fun c => c == 5) "hello" 7
    (by decide) (by decide)

/-- C4: a registering subscriber is sent exactly one update message
reflecting the current state when the reconciled state is populated, zero
messages when no song is active, is added to the registry, and receives
every subsequent (non-failing) broadcast — so it is never sent a sync for a
song it was not first sent an update for. -/
theorem connect_replay_spec (m : ConnectionManager) (cur : CurrentState)
    (ws : Nat) :
    (∀ s, cur.song = some s →
      (m.connect cur ws).2 = [Message.update s cur.options])
    ∧ (cur.song = none → (m.connect cur ws).2 = [])
    ∧ ws ∈ (m.connect cur ws).1.active_connections
    ∧ ∀ (fails : Nat → Bool) (message : String), fails ws = false →
        (ws, message) ∈ ((m.connect cur ws).1.broadcast fails message).2 := by
  refine ⟨?_, ?_, ?_, ?_⟩
  · intro s hs
    simp [ConnectionManager.connect, hs]
  · intro hs
    simp [ConnectionManager.connect, hs]
  · cases hc : cur.song <;> simp [ConnectionManager.connect, hc]
  · intro fails message hok
    apply broadcastLoop_mem _ _ hok
    cases hc : cur.song <;> simp [ConnectionManager.connect, hc]

/-- A concrete song record used to instantiate witnesses. -/
def sampleSong : SongInfo :=
  ⟨some "T", some "A", none, none, some 0, none, some "playing", none⟩

/-- Witness for C4: a populated state yields exactly one update replay, an
empty state yields no message. -/
theorem connect_replay_spec_witness :
    (ConnectionManager.connect ⟨[]⟩ ⟨some sampleSong, some []⟩ 3).2 =
      [Message.update sampleSong (some [])]
    ∧ (ConnectionManager.connect ⟨[]⟩ ⟨none, none⟩ 4).2 = [] :=
  ⟨(connect_replay_spec ⟨[]⟩ ⟨some sampleSong, some []⟩ 3).1 sampleSong rfl,
   (connect_replay_spec ⟨[]⟩ ⟨none, none⟩ 4).2.1 rfl⟩

/-- C2 counterexample: the claim's own example fails on the code — the cache
key of (" Artist ", "Title") differs from that of ("artist", "title")
because spaces are mapped to underscores rather than stripped, and the
change-detection key (raw f-string interpolation) is sensitive to both
whitespace and letter case. -/
theorem songKey_not_normalized :
    cacheFilename (some " Artist ") (some "Title")
        ≠ cacheFilename (some "artist") (some "title")
    ∧ songKey (some " Artist ") (some "Title")
        ≠ songKey (some "artist") (some "title")
    ∧ songKey (some "Artist") (some "Title")
        ≠ songKey (some "artist") (some "title") := by
  refine ⟨?_, ?_, ?_⟩ <;> decide

/-- C2 amended: the cache-key derivation (replace spaces by underscores,
then lowercase) is deterministic and case-insensitive — any two (artist,
title) pairs whose characters agree up to letter case produce the same
cache filename. -/
theorem cacheFilename_case_insensitive (a t a2 t2 : String)
    (ha : a.data.map Char.toLower = a2.data.map Char.toLower)
    (ht : t.data.map Char.toLower = t2.data.map Char.toLower) :
    cacheFilename (some a) (some t) = cacheFilename (some a2) (some t2) := by
  simp only [cacheFilename, pyLower, pyReplaceSpace, songKey, pyStr]
  congr 1
  rw [String.data_append, String.data_append, String.data_append,
    String.data_append]
  simp only [List.map_append]
  rw [map_lower_replace ha, map_lower_replace ht]

/-- Witness for the amended C2: pairs differing only in letter case share a
cache filename. -/
theorem cacheFilename_case_insensitive_witness :
    cacheFilename (some "Artist") (some "Title")
      = cacheFilename (some "artist") (some "title") :=
  cacheFilename_case_insensitive "Artist" "Title" "artist" "title"
    (by decide) (by decide)
